import Mathlib

/-!
Shallow embedding of the Playwright/Telegram bot core
(src/commands/handlers.js, src/automation/tasks.js).

The browser, the target page DOM and the Telegram transport are external;
their outcomes enter the model as explicit parameters (which calls succeed,
what the DOM contains, what the driver run produced), while the code's own
control flow and state updates are translated faithfully from the source.
-/

namespace DuckBot

/-- A catalog entry as produced by the extractor inside `navigateToDuckAI`
(src/automation/tasks.js lines 151-175): `{ name, isBeta, features }`.
`isBeta` is `null` (here `none`) when no beta badge element exists. -/
structure Model where
  name : String
  isBeta : Option String
  features : List String
  deriving DecidableEq, Repr

/-- One `li.bPPjvKMux8ZtRPD4cZrA` list item of the first matching list group,
as the in-page extraction callback sees it: the optional name label text,
the optional beta badge text, and the feature element texts in DOM order. -/
structure DomItem where
  nameLabel : Option String
  betaBadge : Option String
  featureTexts : List String
  deriving DecidableEq, Repr

/-- The per-item extraction of src/automation/tasks.js lines 154-172:
`modelName = nameElement ? nameElement.textContent.trim() : ""`,
`isBeta = betaBadge ? betaBadge.textContent.trim() : null`,
`features = Array.from(featureElements).map((el) => el.textContent.trim())`. -/
def extractModel (item : DomItem) : Model :=
  { name :=
      match item.nameLabel with
      | some t => t.trim
      | none => ""
    isBeta :=
      match item.betaBadge with
      | some t => some t.trim
      | none => none
    features := item.featureTexts.map (fun t => t.trim) }

/-- `items.map((item) => ...)` over the first matching list group
(src/automation/tasks.js line 154). -/
def extractModels (items : List DomItem) : List Model :=
  items.map extractModel

/-- Result object returned by `navigateToDuckAI`
(src/automation/tasks.js lines 201-221). -/
structure NavResult where
  success : Bool
  message : String
  models : List Model
  deriving DecidableEq, Repr

/-- Outcome of the modal-dismissal phase after extraction
(src/automation/tasks.js lines 177-191): either the close-button click and
the hidden-wait succeed, or they throw and the Escape key press succeeds,
or they throw and the Escape key press itself throws. -/
inductive DismissOutcome where
  | closeOk
  | closeFailedEscOk
  | closeFailedEscThrown (errMsg : String)
  deriving DecidableEq, Repr

/-- Outcome of one run of the navigation/extraction pipeline up to the point
where the extracted models are in hand: either extraction was reached with a
given list of models (followed by a dismissal outcome), or some earlier step
threw an error with the given message (challenge detection, a wait timeout,
a navigation failure, ...). -/
inductive DriverOutcome where
  | extracted (models : List Model) (dismiss : DismissOutcome)
  | thrown (errMsg : String)
  deriving DecidableEq, Repr

/-- The error message thrown on challenge detection
(src/automation/tasks.js lines 97-99 and 132-134). -/
def challengeMsg : String :=
  "CAPTCHA/Challenge detected. Cannot proceed in headless mode"

/-- `navigateToDuckAI` (src/automation/tasks.js lines 14-222) as a function of
the environment outcome; all callers pass no argument, so `keepOpen` is true
and the cleanup branches that close the browser are dead. Any error thrown in
the try block - including one thrown by the Escape-key fallback inside the
dismissal catch block, which has no inner try - reaches the outer catch and
yields `{ success: false, message: "Error: " + e.message, models: [] }`. -/
def navigateToDuckAI (outcome : DriverOutcome) : NavResult :=
  match outcome with
  | .extracted models dismiss =>
    match dismiss with
    | .closeFailedEscThrown m =>
      { success := false, message := "Error: " ++ m, models := [] }
    | _ =>
      { success := true
        message := "Successfully extracted " ++ toString models.length ++ " free models!"
        models := models }
  | .thrown m =>
    { success := false, message := "Error: " ++ m, models := [] }

/-- `messageStore[chatId] = { userMessageId, botMessageId }`
(src/commands/handlers.js lines 341-344). -/
structure MessagePair where
  userMessageId : Nat
  botMessageId : Nat
  deriving DecidableEq, Repr

/-- The module-level in-memory stores of src/commands/handlers.js lines 6-19:
`messageStore` (keyed by chat id), `userAcceptanceStore`, `userModelsStore`,
`userSelectedModelStore` (keyed by user id), and the `fetchingModelsFor` set
represented by its membership function. -/
structure BotState where
  messageStore : Nat → Option MessagePair
  userAcceptanceStore : Nat → Bool
  userModelsStore : Nat → Option (List Model)
  userSelectedModelStore : Nat → Option String
  fetchingModelsFor : Nat → Bool

/-- `userModelsStore[userId] && userModelsStore[userId].length > 0`
(src/commands/handlers.js line 123): an absent entry is falsy, a present
array passes only when non-empty. -/
def hasNonEmptyCatalog (st : BotState) (u : Nat) : Bool :=
  match st.userModelsStore u with
  | some ms => !ms.isEmpty
  | none => false

/-- `fetchingModelsFor.add(userId)` (src/commands/handlers.js line 137). -/
def addGuard (st : BotState) (u : Nat) : BotState :=
  { st with fetchingModelsFor := fun v => if v = u then true else st.fetchingModelsFor v }

/-- `fetchingModelsFor.delete(userId)` in the finally block
(src/commands/handlers.js line 183). -/
def removeGuard (st : BotState) (u : Nat) : BotState :=
  { st with fetchingModelsFor := fun v => if v = u then false else st.fetchingModelsFor v }

/-- `userModelsStore[userId] = result.models`
(src/commands/handlers.js line 147, also lines 244 and 560). -/
def storeModels (st : BotState) (u : Nat) (ms : List Model) : BotState :=
  { st with userModelsStore := fun v => if v = u then some ms else st.userModelsStore v }

/-- Result of `ensureModelsLoaded` as seen by its callers:
`{success:true, alreadyLoaded:true}`, `{success:false, message:"Already
fetching models, please wait..."}`, `{success:true, models}`, or
`{success:false, message}` (src/commands/handlers.js lines 121-185). -/
inductive EnsureResult where
  | alreadyLoaded
  | busy
  | loaded (models : List Model)
  | failed (message : String)
  deriving DecidableEq, Repr

/-- How `ensureModelsLoaded` leaves its synchronous prefix
(src/commands/handlers.js lines 123-137): return early with AlreadyLoaded,
return early with Busy, or enter the fetching phase. -/
inductive StartOutcome where
  | alreadyLoaded
  | busy
  | fetching
  deriving DecidableEq, Repr

/-- The synchronous prefix of `ensureModelsLoaded`
(src/commands/handlers.js lines 123-137): the non-empty-catalog check, the
`fetchingModelsFor.has(userId)` check, and - on falling through both -
`fetchingModelsFor.add(userId)`. No `await` occurs in this prefix, so under
the single-threaded event loop it runs atomically. -/
def ensureStart (st : BotState) (u : Nat) : StartOutcome × BotState :=
  if hasNonEmptyCatalog st u then (.alreadyLoaded, st)
  else if st.fetchingModelsFor u then (.busy, st)
  else (.fetching, addGuard st u)

/-- The fetching phase of `ensureModelsLoaded`
(src/commands/handlers.js lines 139-184), entered after the guard was added.
`replyExn`: error message if `ctx.reply` of the status message throws
(caught at line 178; the driver never runs). `r`: the `navigateToDuckAI`
result (that function catches its own errors and never throws). `editExn`:
error message if the `editMessageText` status update throws (caught at line
178; in the success branch the models are already stored at that point).
The finally block removes the guard on every path. -/
def ensureFetchPhase (st : BotState) (u : Nat) (replyExn : Option String)
    (r : NavResult) (editExn : Option String) : EnsureResult × BotState :=
  match replyExn with
  | some e => (.failed e, removeGuard st u)
  | none =>
    if r.success then
      let st1 := storeModels st u r.models
      match editExn with
      | some e => (.failed e, removeGuard st1 u)
      | none => (.loaded r.models, removeGuard st1 u)
    else
      match editExn with
      | some e => (.failed e, removeGuard st u)
      | none => (.failed r.message, removeGuard st u)

/-- `ensureModelsLoaded` (src/commands/handlers.js lines 121-185) as one
call completing without interleaving: the synchronous prefix followed, when
it entered the fetching phase, by the fetching phase. -/
def ensureModelsLoaded (st : BotState) (u : Nat) (replyExn : Option String)
    (r : NavResult) (editExn : Option String) : EnsureResult × BotState :=
  match ensureStart st u with
  | (.alreadyLoaded, st1) => (.alreadyLoaded, st1)
  | (.busy, st1) => (.busy, st1)
  | (.fetching, st1) => ensureFetchPhase st1 u replyExn r editExn

/-- An observable call made on the Telegram transport: callback answers
(with or without an alert), message deletions, message edits, sends, and
`console.error` logging of a swallowed failure. -/
inductive Effect where
  | answerCbAlert (text : String)
  | answerCb (text : Option String)
  | deleteMsg (chat msgId : Nat)
  | editMsg (text : String)
  | sendMsg (text : String)
  | logError (context : String)
  deriving DecidableEq, Repr

/-- One inline keyboard button: display text and callback data. -/
structure Button where
  text : String
  data : String
  deriving DecidableEq, Repr

/-- The button text of a model row (src/commands/handlers.js lines 327-329):
`model.isBeta ? model.name + " [" + model.isBeta + "]" : model.name`, where
the stored `isBeta` is falsy exactly when it is null or the empty string. -/
def rowLabel (m : Model) : String :=
  match m.isBeta with
  | some b => if b = "" then m.name else m.name ++ " [" ++ b ++ "]"
  | none => m.name

/-- The callback data of a model row (src/commands/handlers.js line 330). -/
def rowCallback (m : Model) : String :=
  "view_model_" ++ m.name

/-- The close row appended after the model rows
(src/commands/handlers.js line 334). -/
def closeButton : Button :=
  { text := "❌ Close", data := "close_menu" }

/-- The inline keyboard built by `showModelMenu` (and identically by
`backToModels`): one single-button row per model in store order, then the
close row (src/commands/handlers.js lines 326-336). -/
def modelButtons (models : List Model) : List (List Button) :=
  models.map (fun m => [{ text := rowLabel m, data := rowCallback m }]) ++ [[closeButton]]

/-- JavaScript `s.includes(pat)`: some drop of `s` starts with `pat`. -/
def strIncludes (s pat : String) : Bool :=
  (List.range (s.toList.length + 1)).any
    (fun i => pat.toList.isPrefixOf (s.toList.drop i))

/-- The emoji chosen for a feature line
(src/commands/handlers.js lines 376-383): the if/else-if chain over
`feature.includes(...)`, defaulting to a bullet. -/
def featureEmoji (f : String) : String :=
  if strIncludes f "Image" then "  📷"
  else if strIncludes f "Web search" then "  🌐"
  else if strIncludes f "General-purpose" then "  ⭐"
  else if strIncludes f "Reasoning" then "  💡"
  else if strIncludes f "moderation" then "  🛡️"
  else if strIncludes f "Open source" then "  🔓"
  else if strIncludes f "Created by" then "  👤"
  else "  •"

/-- One rendered feature line (src/commands/handlers.js line 385). -/
def featureLine (f : String) : String :=
  featureEmoji f ++ " " ++ f ++ "\n"

/-- The detail-view message text built by `viewModelDetails`
(src/commands/handlers.js lines 364-387): bold name, bracketed beta marker
when `isBeta` is truthy, then a Features block - one line per feature in
order - when the features list is non-empty. -/
def detailMessage (m : Model) : String :=
  let head := "🤖 *" ++ m.name ++ "*"
  let head :=
    match m.isBeta with
    | some b => if b = "" then head else head ++ " [" ++ b ++ "]"
    | none => head
  let head := head ++ "\n\n"
  if m.features.isEmpty then head
  else head ++ "*Features:*\n" ++ String.join (m.features.map featureLine)

/-- `viewModelDetails` (src/commands/handlers.js lines 352-406): look the
name up in the user's stored models; when absent, answer the callback with
"Model not found" and change nothing; when present, edit the menu message to
the detail view (`editOk` tells whether `editMessageText` succeeds; on its
failure the error is logged and the callback answered with an error text).
No store is ever written. -/
def viewModelDetails (st : BotState) (u : Nat) (modelName : String)
    (editOk : Bool) : BotState × List Effect :=
  match ((st.userModelsStore u).getD []).find? (fun m => m.name == modelName) with
  | none => (st, [Effect.answerCb (some "❌ Model not found")])
  | some m =>
    if editOk then
      (st, [Effect.editMsg (detailMessage m), Effect.answerCb none])
    else
      (st, [Effect.logError "Error editing message",
            Effect.answerCb (some "Error displaying model details")])

/-- The callback-data pattern match registered for model rows:
`/^view_model_(.+)$/` with the captured group passed to `viewModelDetails`
(src/index.js lines 44-47). The capture must be non-empty. -/
def parseViewCallback (cb : String) : Option String :=
  if (String.toList "view_model_").isPrefixOf cb.toList
      ∧ (String.toList "view_model_").length < cb.toList.length then
    some (String.mk (cb.toList.drop (String.toList "view_model_").length))
  else none

/-- Pressing an inline button: when its callback data matches the
`view_model_` pattern, the captured name is routed to `viewModelDetails`;
otherwise this handler does not fire. -/
def pressRow (st : BotState) (u : Nat) (cb : String) (editOk : Bool) :
    BotState × List Effect :=
  match parseViewCallback cb with
  | some name => viewModelDetails st u name editOk
  | none => (st, [])

/-- The alert text of `answerCbQuery` in `handleModelSelection`
(src/commands/handlers.js line 457). -/
def selectionAlert (modelName : String) : String :=
  "✅ " ++ modelName ++ " has been selected!"

/-- `handleModelSelection` (src/commands/handlers.js lines 449-479): store
the selected name unconditionally, answer the callback with an alert, then
inside one try/catch: when a message pair is stored for the chat, delete the
bot message, delete the user message, and remove the pair entry. `delBotOk`
and `delUserOk` tell whether the two deletions succeed; a throw jumps to the
catch, which logs and swallows it - so a failed first deletion skips the
second deletion and the entry removal, and a failed second deletion skips
the entry removal. -/
def handleModelSelection (st : BotState) (u c : Nat) (modelName : String)
    (delBotOk delUserOk : Bool) : BotState × List Effect :=
  let st1 := { st with userSelectedModelStore :=
    fun v => if v = u then some modelName else st.userSelectedModelStore v }
  match st1.messageStore c with
  | none => (st1, [Effect.answerCbAlert (selectionAlert modelName)])
  | some p =>
    if delBotOk then
      if delUserOk then
        ({ st1 with messageStore := fun d => if d = c then none else st1.messageStore d },
         [Effect.answerCbAlert (selectionAlert modelName),
          Effect.deleteMsg c p.botMessageId,
          Effect.deleteMsg c p.userMessageId])
      else
        (st1, [Effect.answerCbAlert (selectionAlert modelName),
               Effect.deleteMsg c p.botMessageId,
               Effect.deleteMsg c p.userMessageId,
               Effect.logError "Error deleting messages"])
    else
      (st1, [Effect.answerCbAlert (selectionAlert modelName),
             Effect.deleteMsg c p.botMessageId,
             Effect.logError "Error deleting messages"])

/-- The store transitions of `acceptPolicyHandler`
(src/commands/handlers.js lines 221-275): mark the user accepted, run the
driver, and write `userModelsStore[userId] = result.models` only in the
`result.success` branch (messaging side effects omitted - they touch no
store). -/
def acceptPolicyHandler (st : BotState) (u : Nat) (r : NavResult) : BotState :=
  let st1 := { st with userAcceptanceStore :=
    fun v => if v = u then true else st.userAcceptanceStore v }
  if r.success then storeModels st1 u r.models else st1

/-- The store transitions of `openHandler`
(src/commands/handlers.js lines 542-572): refuse without policy acceptance;
otherwise run the driver and write `userModelsStore[userId] = result.models`
only in the `result.success` branch. -/
def openHandler (st : BotState) (u : Nat) (r : NavResult) : BotState :=
  if st.userAcceptanceStore u then
    if r.success then storeModels st u r.models else st
  else st

/-- The state at process start: every store empty, the guard set empty. -/
def emptyState : BotState where
  messageStore := fun _ => none
  userAcceptanceStore := fun _ => false
  userModelsStore := fun _ => none
  userSelectedModelStore := fun _ => none
  fetchingModelsFor := fun _ => false

/-- A plain catalog entry used in concrete instances. -/
def modelA : Model :=
  { name := "A", isBeta := none, features := [] }

/-- The beta entry of the round-trip scenario in the spec. -/
def modelB : Model :=
  { name := "B", isBeta := some "Beta", features := ["x", "y"] }

/-- A state in which user 1 has a fetch in flight. -/
def guardState : BotState :=
  { emptyState with fetchingModelsFor := fun v => v == 1 }

/-- A state in which user 1 has a non-empty cached catalog. -/
def loadedState : BotState :=
  { emptyState with userModelsStore := fun v => if v = 1 then some [modelA] else none }

/-- A state in which chat 7 has a stored menu message pair. -/
def pairState : BotState :=
  { emptyState with messageStore :=
      fun c => if c = 7 then some { userMessageId := 100, botMessageId := 200 } else none }

/-- A state in which user 1 holds the two-entry round-trip catalog. -/
def twoModelState : BotState :=
  { emptyState with userModelsStore := fun v => if v = 1 then some [modelA, modelB] else none }

theorem removeGuard_self (st : BotState) (u : Nat) :
    (removeGuard st u).fetchingModelsFor u = false := by
  simp [removeGuard]

theorem ensureFetchPhase_guard (st : BotState) (u : Nat) (re : Option String)
    (r : NavResult) (ee : Option String) :
    (ensureFetchPhase st u re r ee).2.fetchingModelsFor u = false := by
  unfold ensureFetchPhase
  cases re <;> cases ee <;> by_cases h : r.success <;>
    simp [h, removeGuard_self]

theorem ensureFetchPhase_ne_busy (st : BotState) (u : Nat) (re : Option String)
    (r : NavResult) (ee : Option String) :
    (ensureFetchPhase st u re r ee).1 ≠ EnsureResult.busy := by
  unfold ensureFetchPhase
  cases re <;> cases ee <;> by_cases h : r.success <;> simp [h]

/-- Claim C1: the fetch-in-flight guard is keyed per user. Past the cached-
catalog early return, `ensureModelsLoaded(U)` returns Busy exactly when U
itself is already in `fetchingModelsFor`; a different user V in the guard
set never causes U to observe Busy; and when one call for U has entered the
fetching phase (synchronously adding U to the guard), a second call for U
against the resulting state immediately observes Busy, so at most one of two
concurrent same-user calls runs the driver. -/
theorem ensureModelsLoaded_busy_iff_guard (st : BotState) (u v : Nat)
    (re : Option String) (r : NavResult) (ee : Option String) :
    ((ensureModelsLoaded st u re r ee).1 = EnsureResult.busy ↔
      (hasNonEmptyCatalog st u = false ∧ st.fetchingModelsFor u = true)) ∧
    (st.fetchingModelsFor u = false → v ≠ u → st.fetchingModelsFor v = true →
      (ensureModelsLoaded st u re r ee).1 ≠ EnsureResult.busy) ∧
    ((ensureStart st u).1 = StartOutcome.fetching →
      (ensureStart (ensureStart st u).2 u).1 = StartOutcome.busy) := by
  refine ⟨?_, ?_, ?_⟩
  · by_cases h1 : hasNonEmptyCatalog st u = true
    · simp [ensureModelsLoaded, ensureStart, h1]
    · by_cases h2 : st.fetchingModelsFor u = true
      · simp [ensureModelsLoaded, ensureStart, h1, h2]
      · simp [ensureModelsLoaded, ensureStart, h1, h2, ensureFetchPhase_ne_busy]
  · intro h2 _ _
    by_cases h1 : hasNonEmptyCatalog st u = true
    · simp [ensureModelsLoaded, ensureStart, h1]
    · simp [ensureModelsLoaded, ensureStart, h1, h2, ensureFetchPhase_ne_busy]
  · intro h
    by_cases h1 : hasNonEmptyCatalog st u = true
    · simp [ensureStart, h1] at h
    · by_cases h2 : st.fetchingModelsFor u = true
      · simp [ensureStart, h1, h2] at h
      · have e1 : ensureStart st u = (StartOutcome.fetching, addGuard st u) := by
          simp [ensureStart, h1, h2]
        have e2 : hasNonEmptyCatalog (addGuard st u) u = hasNonEmptyCatalog st u := rfl
        have e3 : (addGuard st u).fetchingModelsFor u = true := by simp [addGuard]
        rw [e1]
        simp [ensureStart, e2, e3, h1]

/-- Witness for C1 at concrete states: with user 1 in the guard and no
cached catalog, user 1 observes Busy while user 2 does not. -/
theorem ensureModelsLoaded_busy_iff_guard_witness :
    (ensureModelsLoaded guardState 1 none (navigateToDuckAI (.thrown challengeMsg)) none).1
        = EnsureResult.busy ∧
    (ensureModelsLoaded guardState 2 none (navigateToDuckAI (.thrown challengeMsg)) none).1
        ≠ EnsureResult.busy :=
  ⟨(ensureModelsLoaded_busy_iff_guard guardState 1 2 none
      (navigateToDuckAI (.thrown challengeMsg)) none).1.mpr (by decide),
   (ensureModelsLoaded_busy_iff_guard guardState 2 1 none
      (navigateToDuckAI (.thrown challengeMsg)) none).2.1
      (by decide) (by decide) (by decide)⟩

/-- Claim C2: for every outcome of a call that entered the fetching phase -
success, failure result, or an exception thrown by the status reply or the
status edit - the user is removed from `fetchingModelsFor` before the call
returns; a call that does not enter the fetching phase leaves the state (and
so guard membership) untouched, while entering it adds the user, so the user
is a member only between fetch-start and fetch-end. In particular, when the
driver throws the challenge error, the call returns a Failed result carrying
the challenge reason and the guard no longer holds the user. -/
theorem ensureModelsLoaded_guard_removed (st : BotState) (u : Nat)
    (re : Option String) (r : NavResult) (ee : Option String)
    (hstart : (ensureStart st u).1 = StartOutcome.fetching) :
    ((ensureModelsLoaded st u re r ee).2.fetchingModelsFor u = false) ∧
    ((ensureStart st u).2.fetchingModelsFor u = true) ∧
    (∀ st2 : BotState, (ensureStart st2 u).1 ≠ StartOutcome.fetching →
      (ensureStart st2 u).2 = st2) ∧
    ((ensureModelsLoaded st u none (navigateToDuckAI (.thrown challengeMsg)) none).1
        = EnsureResult.failed ("Error: " ++ challengeMsg) ∧
     (ensureModelsLoaded st u none (navigateToDuckAI (.thrown challengeMsg)) none).2.fetchingModelsFor u
        = false) := by
  have h1 : hasNonEmptyCatalog st u = false := by
    by_cases h : hasNonEmptyCatalog st u = true
    · simp [ensureStart, h] at hstart
    · simpa using h
  have h2 : st.fetchingModelsFor u = false := by
    by_cases h : st.fetchingModelsFor u = true
    · simp [ensureStart, h1, h] at hstart
    · simpa using h
  have e1 : ensureStart st u = (StartOutcome.fetching, addGuard st u) := by
    simp [ensureStart, h1, h2]
  have emain : ∀ re2 r2 ee2, ensureModelsLoaded st u re2 r2 ee2
      = ensureFetchPhase (addGuard st u) u re2 r2 ee2 := by
    intro re2 r2 ee2
    unfold ensureModelsLoaded
    rw [e1]
  refine ⟨?_, ?_, ?_, ?_, ?_⟩
  · rw [emain]
    exact ensureFetchPhase_guard _ _ _ _ _
  · rw [e1]
    simp [addGuard]
  · intro st2 hne
    unfold ensureStart at hne ⊢
    by_cases g1 : hasNonEmptyCatalog st2 u = true
    · simp [g1]
    · by_cases g2 : st2.fetchingModelsFor u = true
      · simp [g1, g2]
      · simp [g1, g2] at hne
  · rw [emain]
    simp [navigateToDuckAI, ensureFetchPhase]
  · rw [emain]
    exact ensureFetchPhase_guard _ _ _ _ _

/-- Witness for C2: from the empty state, a call for user 1 that entered the
fetching phase ends with user 1 out of the guard set and, on the challenge
error, a Failed result carrying the challenge reason. -/
theorem ensureModelsLoaded_guard_removed_witness :
    (ensureModelsLoaded emptyState 1 none (navigateToDuckAI (.thrown challengeMsg)) none).2.fetchingModelsFor 1
        = false ∧
    (ensureModelsLoaded emptyState 1 none (navigateToDuckAI (.thrown challengeMsg)) none).1
        = EnsureResult.failed ("Error: " ++ challengeMsg) :=
  ⟨(ensureModelsLoaded_guard_removed emptyState 1 none
      (navigateToDuckAI (.thrown challengeMsg)) none (by decide)).1,
   (ensureModelsLoaded_guard_removed emptyState 1 none
      (navigateToDuckAI (.thrown challengeMsg)) none (by decide)).2.2.2.1⟩

/-- Claim C3: once a non-empty catalog is cached for a user, a further
`ensureModelsLoaded` call returns AlreadyLoaded and returns the state
unchanged, for every driver outcome and transport outcome - i.e. the result
does not depend on the driver at all, so the driver is not invoked and no
session work happens. -/
theorem ensureModelsLoaded_idempotent_cached (st : BotState) (u : Nat)
    (ms : List Model) (re : Option String) (r : NavResult) (ee : Option String)
    (hms : st.userModelsStore u = some ms) (hne : ms ≠ []) :
    ensureModelsLoaded st u re r ee = (EnsureResult.alreadyLoaded, st) := by
  have h1 : hasNonEmptyCatalog st u = true := by
    simp [hasNonEmptyCatalog, hms, List.isEmpty_iff, hne]
  unfold ensureModelsLoaded
  have e1 : ensureStart st u = (StartOutcome.alreadyLoaded, st) := by
    simp [ensureStart, h1]
  rw [e1]

/-- Witness for C3: with a one-entry catalog cached for user 1, a further
call returns AlreadyLoaded and the untouched state, even against a driver
run that would have failed with the challenge error. -/
theorem ensureModelsLoaded_idempotent_cached_witness :
    ensureModelsLoaded loadedState 1 none (navigateToDuckAI (.thrown challengeMsg)) none
      = (EnsureResult.alreadyLoaded, loadedState) :=
  ensureModelsLoaded_idempotent_cached loadedState 1 [modelA] none
    (navigateToDuckAI (.thrown challengeMsg)) none rfl (by decide)

/-- Claim C4: every failure of the navigation/extraction pipeline - a thrown
challenge error, a timeout, or even a throw of the Escape fallback during
dismissal - is returned by `navigateToDuckAI` as a result object with
`success = false`, a reason string, and an empty models list, not an
exception; and the fetching phase of `ensureModelsLoaded` turns any
unsuccessful result into a Failed value carrying a reason string while
writing nothing to the per-user catalog store. -/
theorem pipeline_failures_become_failed_results (m : String) (ms : List Model)
    (st : BotState) (u : Nat) (ee : Option String) (r : NavResult)
    (hfail : r.success = false) :
    (navigateToDuckAI (.thrown m)
        = { success := false, message := "Error: " ++ m, models := [] }) ∧
    (navigateToDuckAI (.extracted ms (.closeFailedEscThrown m))
        = { success := false, message := "Error: " ++ m, models := [] }) ∧
    ((ensureFetchPhase st u none r ee).2.userModelsStore = st.userModelsStore) ∧
    ((ensureFetchPhase st u none r ee).1 = EnsureResult.failed (ee.getD r.message)) := by
  refine ⟨rfl, rfl, ?_, ?_⟩ <;>
    cases ee <;> simp [ensureFetchPhase, hfail, removeGuard]

/-- Witness for C4: the challenge throw becomes a Failed result with the
challenge reason, an empty models list, and no catalog stored for user 1. -/
theorem pipeline_failures_become_failed_results_witness :
    (navigateToDuckAI (.thrown challengeMsg)
        = { success := false, message := "Error: " ++ challengeMsg, models := [] }) ∧
    ((ensureFetchPhase emptyState 1 none (navigateToDuckAI (.thrown challengeMsg)) none).2.userModelsStore
        = emptyState.userModelsStore) ∧
    ((ensureFetchPhase emptyState 1 none (navigateToDuckAI (.thrown challengeMsg)) none).1
        = EnsureResult.failed ("Error: " ++ challengeMsg)) :=
  ⟨(pipeline_failures_become_failed_results challengeMsg [] emptyState 1 none
      (navigateToDuckAI (.thrown challengeMsg)) rfl).1,
   (pipeline_failures_become_failed_results challengeMsg [] emptyState 1 none
      (navigateToDuckAI (.thrown challengeMsg)) rfl).2.2.1,
   (pipeline_failures_become_failed_results challengeMsg [] emptyState 1 none
      (navigateToDuckAI (.thrown challengeMsg)) rfl).2.2.2⟩

/-- Claim C9: a failed fetch never clobbers an existing catalog. In
`ensureModelsLoaded`, in `acceptPolicyHandler`, and in `openHandler`, the
per-user catalog store is written only when the driver result reports
success, so an unsuccessful result leaves the whole catalog store - in
particular any previously cached catalog - unchanged. -/
theorem failed_fetch_preserves_catalog (st : BotState) (u : Nat)
    (re ee : Option String) (r : NavResult) (hfail : r.success = false) :
    ((ensureModelsLoaded st u re r ee).2.userModelsStore = st.userModelsStore) ∧
    ((acceptPolicyHandler st u r).userModelsStore = st.userModelsStore) ∧
    ((openHandler st u r).userModelsStore = st.userModelsStore) := by
  refine ⟨?_, ?_, ?_⟩
  · unfold ensureModelsLoaded
    by_cases h1 : hasNonEmptyCatalog st u = true
    · simp [ensureStart, h1]
    · by_cases h2 : st.fetchingModelsFor u = true
      · simp [ensureStart, h1, h2]
      · have e1 : ensureStart st u = (StartOutcome.fetching, addGuard st u) := by
          simp [ensureStart, h1, h2]
        rw [e1]
        cases re <;> cases ee <;>
          simp [ensureFetchPhase, hfail, removeGuard, addGuard]
  · simp [acceptPolicyHandler, hfail]
  · unfold openHandler
    by_cases h : st.userAcceptanceStore u = true <;> simp [h, hfail]

/-- Witness for C9: with a catalog already cached for user 1, a failed run
leaves that catalog in place on all three paths. -/
theorem failed_fetch_preserves_catalog_witness :
    ((ensureModelsLoaded loadedState 2 none (navigateToDuckAI (.thrown challengeMsg)) none).2.userModelsStore
        = loadedState.userModelsStore) ∧
    ((acceptPolicyHandler loadedState 1 (navigateToDuckAI (.thrown challengeMsg))).userModelsStore
        = loadedState.userModelsStore) ∧
    ((openHandler loadedState 1 (navigateToDuckAI (.thrown challengeMsg))).userModelsStore
        = loadedState.userModelsStore) :=
  failed_fetch_preserves_catalog loadedState 2 none none
    (navigateToDuckAI (.thrown challengeMsg)) rfl |>.imp id
    (fun _ => ⟨(failed_fetch_preserves_catalog loadedState 1 none none
        (navigateToDuckAI (.thrown challengeMsg)) rfl).2.1,
      (failed_fetch_preserves_catalog loadedState 1 none none
        (navigateToDuckAI (.thrown challengeMsg)) rfl).2.2⟩)

/-- Counterexample for C5 as stated: in a state whose chat 7 holds the
message pair (100, 200), a Select whose bot-message deletion fails (for
example because that message was already deleted) leaves the MenuMessagePair
entry in the store - it is not removed as the claim asserts - and the
user-message deletion is never even attempted. -/
theorem handleModelSelection_entry_not_removed_cex :
    ((handleModelSelection pairState 1 7 "GPT-Model-X" false true).1.messageStore 7
        = some { userMessageId := 100, botMessageId := 200 }) ∧
    ¬ ((handleModelSelection pairState 1 7 "GPT-Model-X" false true).1.messageStore 7
        = none) ∧
    (Effect.deleteMsg 7 100 ∉ (handleModelSelection pairState 1 7 "GPT-Model-X" false true).2) := by
  refine ⟨rfl, by decide, by decide⟩

/-- Claim C5 (amended): on Select, the chosen name is stored in
SelectionState and the emphatic confirmation alert is shown first; when both
deletions succeed the two messages of the stored pair are deleted and the
pair entry removed; a deletion failure is logged and swallowed, never
propagated, but then the pair entry stays in the store, and a failure of the
bot-message deletion also skips the user-message deletion. -/
theorem handleModelSelection_spec (st : BotState) (u c : Nat) (n : String)
    (dB dU : Bool) (p : MessagePair) (hp : st.messageStore c = some p) :
    ((handleModelSelection st u c n dB dU).1.userSelectedModelStore u = some n) ∧
    ((handleModelSelection st u c n dB dU).2.head?
        = some (Effect.answerCbAlert (selectionAlert n))) ∧
    (dB = true → dU = true →
      (handleModelSelection st u c n dB dU).1.messageStore c = none ∧
      (handleModelSelection st u c n dB dU).2
        = [Effect.answerCbAlert (selectionAlert n),
           Effect.deleteMsg c p.botMessageId,
           Effect.deleteMsg c p.userMessageId]) ∧
    (dB = false →
      (handleModelSelection st u c n dB dU).1.messageStore c = some p ∧
      (handleModelSelection st u c n dB dU).2
        = [Effect.answerCbAlert (selectionAlert n),
           Effect.deleteMsg c p.botMessageId,
           Effect.logError "Error deleting messages"]) ∧
    (dB = true → dU = false →
      (handleModelSelection st u c n dB dU).1.messageStore c = some p ∧
      (handleModelSelection st u c n dB dU).2
        = [Effect.answerCbAlert (selectionAlert n),
           Effect.deleteMsg c p.botMessageId,
           Effect.deleteMsg c p.userMessageId,
           Effect.logError "Error deleting messages"]) := by
  refine ⟨?_, ?_, ?_, ?_, ?_⟩ <;>
    cases dB <;> cases dU <;> simp [handleModelSelection, hp]

/-- Witness for C5 (amended) at the stored pair of chat 7: with both
deletions succeeding, the selection is stored, the alert leads, and the pair
entry is removed. -/
theorem handleModelSelection_spec_witness :
    ((handleModelSelection pairState 1 7 "GPT-Model-X" true true).1.userSelectedModelStore 1
        = some "GPT-Model-X") ∧
    ((handleModelSelection pairState 1 7 "GPT-Model-X" true true).1.messageStore 7 = none) :=
  ⟨(handleModelSelection_spec pairState 1 7 "GPT-Model-X" true true
      { userMessageId := 100, botMessageId := 200 } rfl).1,
   ((handleModelSelection_spec pairState 1 7 "GPT-Model-X" true true
      { userMessageId := 100, botMessageId := 200 } rfl).2.2.1 rfl rfl).1⟩

/-- Claim C6: extraction never fails on malformed list items - a missing
name label yields the empty string, a present one its trimmed text, a
missing beta badge yields an absent beta label, absent feature elements
yield the empty feature sequence, and one catalog entry is produced per list
item of the given group. -/
theorem extractModels_degrades (items : List DomItem) (nl bb : Option String)
    (fts : List String) (t : String) :
    ((extractModels items).length = items.length) ∧
    (extractModels items = items.map extractModel) ∧
    ((extractModel { nameLabel := none, betaBadge := bb, featureTexts := fts }).name = "") ∧
    ((extractModel { nameLabel := some t, betaBadge := bb, featureTexts := fts }).name
        = t.trim) ∧
    ((extractModel { nameLabel := nl, betaBadge := none, featureTexts := fts }).isBeta
        = none) ∧
    ((extractModel { nameLabel := nl, betaBadge := bb, featureTexts := [] }).features
        = []) :=
  ⟨by simp [extractModels], rfl, rfl, rfl, rfl, rfl⟩

/-- Counterexample for C7 as stated: when the Escape-key fallback itself
throws after a one-entry catalog has been captured, `navigateToDuckAI` does
not return success with the captured catalog - the error propagates to the
outer catch, which reports failure and discards the captured models. -/
theorem dismiss_fallback_failure_propagates_cex :
    ((navigateToDuckAI (.extracted [modelA] (.closeFailedEscThrown "Keyboard press failed"))).success
        = false) ∧
    ((navigateToDuckAI (.extracted [modelA] (.closeFailedEscThrown "Keyboard press failed"))).models
        = []) :=
  ⟨rfl, rfl⟩

/-- Claim C7 (amended): dismissal of the revealing surface is best-effort
only through the Escape fallback: when the close control works, and also
when it fails but the Escape fallback succeeds, the operation returns
success with the captured catalog; when the Escape fallback itself throws,
the error propagates to the outer handler, which returns a failed result
with an empty models list. -/
theorem dismiss_best_effort_amended (ms : List Model) (m : String) :
    (navigateToDuckAI (.extracted ms .closeOk)
        = { success := true,
            message := "Successfully extracted " ++ toString ms.length ++ " free models!",
            models := ms }) ∧
    (navigateToDuckAI (.extracted ms .closeFailedEscOk)
        = { success := true,
            message := "Successfully extracted " ++ toString ms.length ++ " free models!",
            models := ms }) ∧
    (navigateToDuckAI (.extracted ms (.closeFailedEscThrown m))
        = { success := false, message := "Error: " ++ m, models := [] }) :=
  ⟨rfl, rfl, rfl⟩

theorem isPrefixOf_append_self (p t : List Char) : p.isPrefixOf (p ++ t) = true :=
  List.isPrefixOf_iff_prefix.mpr (List.prefix_append p t)

theorem parseViewCallback_append (s : String) (h : s ≠ "") :
    parseViewCallback ("view_model_" ++ s) = some s := by
  obtain ⟨l⟩ := s
  have hl : l ≠ [] := by
    intro he
    apply h
    rw [he]
  have hlen : 0 < l.length := List.length_pos.mpr hl
  have hdata : ("view_model_" ++ String.mk l).toList = String.toList "view_model_" ++ l := rfl
  have hcond : ((String.toList "view_model_").isPrefixOf (String.toList "view_model_" ++ l) = true)
      ∧ (String.toList "view_model_").length < (String.toList "view_model_" ++ l).length := by
    refine ⟨isPrefixOf_append_self _ _, ?_⟩
    rw [List.length_append]
    omega
  unfold parseViewCallback
  rw [hdata, if_pos hcond, List.drop_left]

/-- Claim C8: the list view renders one selectable row per catalog entry in
exactly the catalog's order followed by the close row; a row label is the
entry name, suffixed by the bracketed beta marker when the beta label is
truthy and the bare name otherwise; and pressing the row built for an entry
routes its callback data through the `view_model_` pattern back to that
entry's name, whose lookup renders the detail view - whose text, on the
spec's example entry B with beta label "Beta" and features x then y, carries
the beta marker and the feature lines in catalog order. -/
theorem menu_round_trip (models : List Model) (st : BotState) (u : Nat)
    (m : Model) (b : String)
    (hcat : st.userModelsStore u = some models)
    (hfind : models.find? (fun x => x.name == m.name) = some m)
    (hname : m.name ≠ "") :
    ((modelButtons models).map (fun row => row.map Button.text)
        = models.map (fun x => [rowLabel x]) ++ [["❌ Close"]]) ∧
    (m.isBeta = some b → b ≠ "" → rowLabel m = m.name ++ " [" ++ b ++ "]") ∧
    (m.isBeta = none → rowLabel m = m.name) ∧
    (parseViewCallback (rowCallback m) = some m.name) ∧
    (pressRow st u (rowCallback m) true
        = (st, [Effect.editMsg (detailMessage m), Effect.answerCb none])) ∧
    (detailMessage modelB = "🤖 *B* [Beta]\n\n*Features:*\n  • x\n  • y\n") := by
  have hparse : parseViewCallback (rowCallback m) = some m.name :=
    parseViewCallback_append m.name hname
  refine ⟨?_, ?_, ?_, hparse, ?_, ?_⟩
  · simp [modelButtons, closeButton]
  · intro hb hbne
    simp [rowLabel, hb, hbne]
  · intro hb
    simp [rowLabel, hb]
  · unfold pressRow
    rw [hparse]
    unfold viewModelDetails
    rw [hcat]
    simp [hfind]
  · rfl

/-- Witness for C8 on the spec's round-trip catalog [A, B]: pressing the row
built for entry B renders B's detail view. -/
theorem menu_round_trip_witness :
    pressRow twoModelState 1 (rowCallback modelB) true
      = (twoModelState, [Effect.editMsg (detailMessage modelB), Effect.answerCb none]) :=
  (menu_round_trip [modelA, modelB] twoModelState 1 modelB "Beta" rfl
    (by decide) (by decide)).2.2.2.2.1

/-- Claim C10: Select stores the chosen name unchecked - SelectionState is
set to the carried name even when it names no entry of the user's catalog or
the user has no catalog at all - whereas the detail-view transition looks
the name up and, when absent, answers with the not-found acknowledgment and
changes nothing. -/
theorem handleModelSelection_unvalidated (st : BotState) (u c : Nat) (n : String)
    (dB dU eo : Bool)
    (habsent : ((st.userModelsStore u).getD []).find? (fun m => m.name == n) = none) :
    ((handleModelSelection st u c n dB dU).1.userSelectedModelStore u = some n) ∧
    (viewModelDetails st u n eo = (st, [Effect.answerCb (some "❌ Model not found")])) := by
  constructor
  · rcases hms : st.messageStore c with _ | p <;>
      cases dB <;> cases dU <;> simp [handleModelSelection, hms]
  · unfold viewModelDetails
    rw [habsent]

/-- Witness for C10 from the empty state: user 1 has no catalog, yet
selecting "GPT-Model-X" stores it, while the detail view refuses it. -/
theorem handleModelSelection_unvalidated_witness :
    ((handleModelSelection emptyState 1 7 "GPT-Model-X" true true).1.userSelectedModelStore 1
        = some "GPT-Model-X") ∧
    (viewModelDetails emptyState 1 "GPT-Model-X" true
        = (emptyState, [Effect.answerCb (some "❌ Model not found")])) :=
  handleModelSelection_unvalidated emptyState 1 7 "GPT-Model-X" true true true rfl

end DuckBot
